import Mathlib

/-!
Shallow embedding of `src/managed/sync.rs` (crate deadpool): the `SyncWrapper`
primitive that runs blocking closures against a mutex-protected object on a
worker thread.

The mutex is modelled as its protected value together with its poison flag.
Caller-supplied closures are modelled by their observable outcome on the value
they receive: a normal return (`Ok`/`Err`) or a panic, in each case together
with the state the closure leaves the object in.  The executor collaborator
(`crate::runtime`, not part of the sources) is modelled from the spec where
noted.
-/

namespace Deadpool

/-- State of a `std::sync::Mutex<T>`: the protected value and the poison flag.
A fresh mutex (`Mutex::new`) is unpoisoned; the flag is set when a guard is
dropped during a panic unwind. -/
structure MutexState (T : Type) where
  val : T
  poisoned : Bool
  deriving Repr, DecidableEq

/-- `Mutex::lock()`: yields the guard (modelled by the protected value) when the
mutex is not poisoned, and a `PoisonError` otherwise.  The `PoisonError` still
carries the guard, which `into_inner` can recover, so the error case also
carries the value. -/
def MutexState.lock {T : Type} (m : MutexState T) : Except T T :=
  if m.poisoned then .error m.val else .ok m.val

/-- `PoisonError::into_inner` composed with `lock`: acquire the data whether or
not the mutex is poisoned (`match lock() { Ok(g) => g, Err(e) => e.into_inner() }`). -/
def lockIgnoringPoison {T : Type} (m : MutexState T) : T :=
  match m.lock with
  | .ok v => v
  | .error v => v

/-- `InteractError<E>` from sync.rs; `P` stands in for the payload type
`Box<dyn Any + Send>` of the `Panic` variant. -/
inductive InteractError (E P : Type) where
  /-- Provided callback has panicked. -/
  | panic (payload : P)
  /-- Callback was aborted. -/
  | aborted
  /-- Backend returned an error. -/
  | backend (e : E)
  deriving Repr, DecidableEq

/-- A panic payload observable from an interact worker: either the payload of a
panic raised by the user closure, or the `PoisonError` with which
`arc.lock().unwrap()` panics when the mutex is already poisoned. -/
inductive PanicPayload (P : Type) where
  | user (p : P)
  | poisonError
  deriving Repr, DecidableEq

/-- Observable behaviour of a caller closure `FnOnce(&mut T) -> Result<R, E>`
on the value it receives: return `Ok(r)` or `Err(e)`, or panic with payload
`p`; in every case `t` is the state the closure leaves the object in. -/
inductive ClosureOutcome (T R E P : Type) where
  | ok (r : R) (t : T)
  | err (e : E) (t : T)
  | panicked (p : P) (t : T)
  deriving Repr, DecidableEq

/-- What happened to the closure handed to the executor: it ran to completion
with value `a`, or it panicked with payload `p`. -/
inductive WorkerRun (A P : Type) where
  | completed (a : A)
  | panicked (p : P)
  deriving Repr, DecidableEq

/-- Modelled from the spec: `Runtime::spawn_blocking` lives in `crate::runtime`,
which is not among the sources.  Per the spec it runs the closure on a worker
thread and delivers a distinguishable panic-vs-success outcome: a normal return
as `Ok(value)`, a captured panic as `Err(SpawnBlockingError::Panic(payload))`
(the only variant of `SpawnBlockingError`, as witnessed by the exhaustive match
in sync.rs). -/
def spawn_blocking {A P : Type} (run : WorkerRun A P) : Except P A :=
  match run with
  | .completed a => .ok a
  | .panicked p => .error p

/-- Whether the scheduling layer lets a queued interact worker task run, or
cancels it before it runs.  A cancelled task never executes its closure and in
particular never touches the mutex; this type only parametrises the trace
model below. -/
inductive Sched where
  | run
  | cancel
  deriving Repr, DecidableEq

namespace SyncWrapper

/-- The closure that `SyncWrapper::interact` hands to `spawn_blocking`:
`let mut conn = arc.lock().unwrap(); f(&mut *conn)`.
If the mutex is poisoned, `unwrap()` panics on the `PoisonError` before any
guard exists, so the mutex is left unchanged.  Otherwise the closure runs with
exclusive access; a normal return releases the guard leaving the mutex
unpoisoned, while a panic unwind drops the guard and sets the poison flag.
Returns the worker outcome and the mutex state left behind. -/
def interactWorker {T R E P : Type} (f : T → ClosureOutcome T R E P)
    (m : MutexState T) : WorkerRun (Except E R) (PanicPayload P) × MutexState T :=
  match m.lock with
  | .error _ => (.panicked .poisonError, m)
  | .ok v =>
    match f v with
    | .ok r t => (.completed (.ok r), ⟨t, false⟩)
    | .err e t => (.completed (.error e), ⟨t, false⟩)
    | .panicked p t => (.panicked (.user p), ⟨t, true⟩)

/-- `SyncWrapper::interact`: schedule the worker, await it, then
`.map_err(|e| match e { SpawnBlockingError::Panic(p) => InteractError::Panic(p) })?`
`.map_err(InteractError::Backend)`.  The match on the executor error is
exhaustive with the single `Panic` arm, exactly as in the source.  Returns the
result of the call and the mutex state after. -/
def interact {T R E P : Type} (f : T → ClosureOutcome T R E P)
    (m : MutexState T) :
    Except (InteractError E (PanicPayload P)) R × MutexState T :=
  match interactWorker f m with
  | (run, m2) =>
    match spawn_blocking run with
    | .error p => (.error (.panic p), m2)
    | .ok (.ok r) => (.ok r, m2)
    | .ok (.error e) => (.error (.backend e), m2)

/-- Result of `SyncWrapper::new`: the wrapper was created around a fresh mutex,
or the factory error was returned, or the construction call itself panicked. -/
inductive NewOutcome (T E P : Type) where
  | created (w : MutexState T)
  | err (e : E)
  | panicked (p : P)
  deriving Repr, DecidableEq

/-- `SyncWrapper::new`: run the factory via `spawn_blocking`; on
`Err(SpawnBlockingError::Panic(e))` the call panics (`panic!("{:?}", e)`),
otherwise `result.map(|obj| Self { obj: Arc::new(Mutex::new(obj)), .. })`.
The factory behaviour is given as the worker outcome of running it. -/
def new {T E P : Type} (factory : WorkerRun (Except E T) P) : NewOutcome T E P :=
  match spawn_blocking factory with
  | .error e => .panicked e
  | .ok result =>
    match result with
    | .ok obj => .created ⟨obj, false⟩
    | .error e => .err e

/-- `SyncWrapper::inner_obj`: clones the `Arc`, handing out the same shared
mutex state; the wrapper is not modified. -/
def inner_obj {T : Type} (m : MutexState T) : MutexState T :=
  m

/-- `SyncWrapper::is_mutex_poisoned`: `self.obj.is_poisoned()`.  Modelled in
state-passing style to make the frame condition statable: the call returns the
poison flag and the (unchanged) wrapper state. -/
def is_mutex_poisoned {T : Type} (m : MutexState T) : Bool × MutexState T :=
  (m.poisoned, m)

/-- Result of `impl Drop for SyncWrapper`: either the background worker task
ran, acquired the mutex ignoring poison, and let the destructor of the wrapped
object run exactly once over value `t`; or scheduling the task failed and the
`.unwrap()` in `drop` panicked. -/
inductive DropOutcome (T : Type) where
  | destroyed (t : T)
  | fatal
  deriving Repr, DecidableEq

/-- `impl Drop for SyncWrapper`: submit
`match arc.lock() { Ok(guard) => drop(guard), Err(e) => drop(e.into_inner()) }`
to `spawn_blocking_background` and `.unwrap()` the submission result.
`spawn_blocking_background` is modelled from the spec: it lives in
`crate::runtime` (not among the sources), schedules the closure on a worker
thread fire-and-forget, and its submission can fail, in which case `.unwrap()`
panics.  `scheduleOk` says whether submission succeeded. -/
def drop {T : Type} (scheduleOk : Bool) (m : MutexState T) : DropOutcome T :=
  if scheduleOk then
    .destroyed (lockIgnoringPoison m)
  else
    .fatal

/-- `InteractError` Display impl: `Panic(_)` prints "Panic" (the payload is not
formatted), `Aborted` prints "Aborted", `Backend(e)` prints
`write!(f, "Backend error: {}", e)` with the Display output of `e`. -/
def displayFmt {E P : Type} (dispE : E → String) : InteractError E P → String
  | .panic _ => "Panic"
  | .aborted => "Aborted"
  | .backend e => "Backend error: " ++ dispE e

/-- `InteractError` Error impl, `source`: `Panic` and `Aborted` have no source,
`Backend(e)` reports `e`. -/
def sourceOf {E P : Type} : InteractError E P → Option E
  | .panic _ => none
  | .aborted => none
  | .backend e => some e

/-- Effect of one queued `interact` call on the mutex: a task the scheduling
layer cancels never runs its closure, so the mutex is untouched; a task that
runs has the effect of `interact`. -/
def traceStep {T R E P : Type} (s : Sched) (f : T → ClosureOutcome T R E P)
    (m : MutexState T) : MutexState T :=
  match s with
  | .cancel => m
  | .run => (interact f m).2

/-- Run a sequence of queued `interact` calls against one wrapper, threading
the mutex state; each step is a scheduling decision together with the closure
passed. -/
def runTrace {T R E P : Type} :
    List (Sched × (T → ClosureOutcome T R E P)) → MutexState T → MutexState T
  | [], m => m
  | (s, f) :: rest, m => runTrace rest (traceStep s f m)

/-- Whether one `interact` step panics while actually holding the lock: the
task must be scheduled, the lock acquisition must succeed (otherwise the
`unwrap()` panic happens before any guard exists), and the closure must panic. -/
def heldAndPanicked {T R E P : Type} (s : Sched) (f : T → ClosureOutcome T R E P)
    (m : MutexState T) : Bool :=
  match s with
  | .cancel => false
  | .run =>
    match m.lock with
    | .error _ => false
    | .ok v =>
      match f v with
      | .panicked _ _ => true
      | _ => false

/-- Whether any step of a trace of `interact` calls panicked while holding the
lock. -/
def panickedDuring {T R E P : Type} :
    List (Sched × (T → ClosureOutcome T R E P)) → MutexState T → Bool
  | [], _ => false
  | (s, f) :: rest, m =>
    heldAndPanicked s f m || panickedDuring rest (traceStep s f m)

/-- Poison bookkeeping along a trace: the final poison flag is the initial one
or-ed with whether any step panicked while holding the lock.  Once poisoned,
later `interact` calls panic at `unwrap()` without a guard in scope, so the
flag is never cleared; a step only sets it by panicking inside the critical
section. -/
theorem runTrace_poisoned {T R E P : Type}
    (steps : List (Sched × (T → ClosureOutcome T R E P))) (m : MutexState T) :
    (runTrace steps m).poisoned = (m.poisoned || panickedDuring steps m) := by
  induction steps generalizing m with
  | nil => simp [runTrace, panickedDuring]
  | cons sf rest ih =>
    obtain ⟨s, f⟩ := sf
    cases s with
    | cancel =>
      simp [runTrace, panickedDuring, traceStep, heldAndPanicked, ih]
    | run =>
      by_cases hp : m.poisoned
      · have hlock : m.lock = .error m.val := by simp [MutexState.lock, hp]
        simp [runTrace, panickedDuring, traceStep, interact, interactWorker,
          spawn_blocking, heldAndPanicked, hlock, ih, hp]
      · have hlock : m.lock = .ok m.val := by simp [MutexState.lock, hp]
        cases hf : f m.val with
        | ok r t =>
          simp [runTrace, panickedDuring, traceStep, interact, interactWorker,
            spawn_blocking, heldAndPanicked, hlock, hf, ih, hp]
        | err e t =>
          simp [runTrace, panickedDuring, traceStep, interact, interactWorker,
            spawn_blocking, heldAndPanicked, hlock, hf, ih, hp]
        | panicked p t =>
          simp [runTrace, panickedDuring, traceStep, interact, interactWorker,
            spawn_blocking, heldAndPanicked, hlock, hf, ih, hp]

end SyncWrapper

/-! Interleaving model of concurrent `interact` calls on one wrapper.  Each
in-flight call is a worker task; its program counter is `pending` while the
asynchronous caller awaits and the worker has not yet acquired the lock,
`holding` while the worker is inside its critical section
(`lock` ... closure ... guard drop, all within the blocking closure, with no
await point), and `finished` once the worker released the lock. -/

/-- Program counter of one in-flight `interact` worker task. -/
inductive Pc where
  | pending
  | holding
  | finished
  deriving Repr, DecidableEq

/-- Global state of `n` concurrent `interact` calls on one wrapper: who owns
the mutex, and the program counter of each worker task. -/
structure LockSys (n : Nat) where
  owner : Option (Fin n)
  tasks : Fin n → Pc

/-- Initial state: the mutex is free and every call is pending. -/
def initSys (n : Nat) : LockSys n :=
  ⟨none, fun _ => .pending⟩

/-- Transitions of the interleaving model.  Acquisition succeeds only when the
mutex is free (mutual exclusion is what the mutex provides); release happens on
every exit path of the worker closure (normal return or unwind). -/
inductive LockStep {n : Nat} : LockSys n → LockSys n → Prop where
  | acquire (i : Fin n) (s : LockSys n) :
      s.tasks i = .pending → s.owner = none →
      LockStep s ⟨some i, Function.update s.tasks i .holding⟩
  | release (i : Fin n) (s : LockSys n) :
      s.tasks i = .holding →
      LockStep s ⟨none, Function.update s.tasks i .finished⟩

/-- Reflexive-transitive closure of `LockStep`. -/
inductive Reaches {n : Nat} : LockSys n → LockSys n → Prop where
  | refl (s : LockSys n) : Reaches s s
  | step {s1 s2 s3 : LockSys n} : Reaches s1 s2 → LockStep s2 s3 → Reaches s1 s3

/-- Inductive invariant of the interleaving model: a task is inside its
critical section exactly when it owns the mutex. -/
theorem lockSys_invariant {n : Nat} {s : LockSys n}
    (h : Reaches (initSys n) s) : ∀ i, s.tasks i = .holding ↔ s.owner = some i := by
  induction h with
  | refl =>
    intro i
    simp [initSys]
  | step _ hstep ih =>
    cases hstep with
    | acquire i s hi hown =>
      intro j
      by_cases hij : j = i
      · subst hij
        simp [Function.update]
      · simp only [Function.update, dif_neg hij]
        constructor
        · intro hj
          exact absurd ((ih j).mp hj) (by simp [hown])
        · intro hj
          exact absurd (Option.some.inj hj) (fun hh => hij hh.symm)
    | release i s hi =>
      intro j
      by_cases hij : j = i
      · subst hij
        simp [Function.update]
      · simp only [Function.update, dif_neg hij]
        constructor
        · intro hj
          have := (ih j).mp hj
          rw [(ih i).mp hi] at this
          exact absurd (Option.some.inj this) (fun hh => hij hh.symm)
        · intro hj
          simp at hj

/-! Claim theorems -/

/-- Claim C1: a closure passed to interact that panics while running on the
worker (the lock was acquired, so the mutex was not already poisoned) makes
interact return Err(InteractError::Panic(payload)) carrying the panic payload
of the closure; immediately afterwards is_mutex_poisoned() on the same wrapper
returns true; and the wrapped object is not destroyed by the panic: the mutex
still holds the state the panicking closure left it in. -/
theorem interact_panic_spec {T R E P : Type}
    (f : T → ClosureOutcome T R E P) (m : MutexState T) (p : P) (t : T)
    (hpo : m.poisoned = false) (hf : f m.val = .panicked p t) :
    (SyncWrapper.interact f m).1 = .error (.panic (.user p)) ∧
    (SyncWrapper.is_mutex_poisoned (SyncWrapper.interact f m).2).1 = true ∧
    (SyncWrapper.interact f m).2.val = t := by
  simp [SyncWrapper.interact, SyncWrapper.interactWorker, spawn_blocking,
    SyncWrapper.is_mutex_poisoned, MutexState.lock, hpo, hf]

/-- Concrete run of claim C1: a closure that panics with payload 7 leaving the
counter at 1. -/
theorem interact_panic_spec_witness :
    (⟨0, false⟩ : MutexState Nat).poisoned = false ∧
    ((SyncWrapper.interact
        (fun v : Nat => ClosureOutcome.panicked (R := Nat) (E := Nat) 7 (v + 1))
        ⟨0, false⟩).1 = .error (.panic (.user 7)) ∧
      (SyncWrapper.is_mutex_poisoned (SyncWrapper.interact
        (fun v : Nat => ClosureOutcome.panicked (R := Nat) (E := Nat) 7 (v + 1))
        ⟨0, false⟩).2).1 = true ∧
      (SyncWrapper.interact
        (fun v : Nat => ClosureOutcome.panicked (R := Nat) (E := Nat) 7 (v + 1))
        ⟨0, false⟩).2.val = 1) :=
  ⟨rfl, interact_panic_spec _ _ 7 1 rfl rfl⟩

/-- Claim C2: contrary to the spec, interact can never return
Err(InteractError::Aborted), whatever the closure and the mutex state: the
executor error type has only the Panic variant (witnessed by the exhaustive
single-arm match in the source), so every interact call ends in Ok, Backend or
Panic, and the Aborted variant is never constructed anywhere in the sources. -/
theorem interact_never_aborted {T R E P : Type}
    (f : T → ClosureOutcome T R E P) (m : MutexState T) :
    (SyncWrapper.interact f m).1 ≠ .error .aborted := by
  by_cases hp : m.poisoned
  · simp [SyncWrapper.interact, SyncWrapper.interactWorker, spawn_blocking,
      MutexState.lock, hp]
  · cases hf : f m.val <;>
      simp [SyncWrapper.interact, SyncWrapper.interactWorker, spawn_blocking,
        MutexState.lock, hp, hf]

/-- Claim C3: a closure returning Err(e) makes interact return
Err(InteractError::Backend(e)) with the very value the closure returned, and a
closure returning Ok(r) makes interact return Ok(r). -/
theorem interact_result_passthrough {T R E P : Type}
    (f : T → ClosureOutcome T R E P) (m : MutexState T)
    (hpo : m.poisoned = false) :
    (∀ (e : E) (t : T), f m.val = .err e t →
      (SyncWrapper.interact f m).1 = .error (.backend e)) ∧
    (∀ (r : R) (t : T), f m.val = .ok r t →
      (SyncWrapper.interact f m).1 = .ok r) := by
  constructor
  · intro e t hf
    simp [SyncWrapper.interact, SyncWrapper.interactWorker, spawn_blocking,
      MutexState.lock, hpo, hf]
  · intro r t hf
    simp [SyncWrapper.interact, SyncWrapper.interactWorker, spawn_blocking,
      MutexState.lock, hpo, hf]

/-- Concrete run of claim C3: a closure returning Err 5 yields Backend 5. -/
theorem interact_result_passthrough_witness :
    (⟨0, false⟩ : MutexState Nat).poisoned = false ∧
    (SyncWrapper.interact
      (fun v : Nat => ClosureOutcome.err (R := Nat) (P := Nat) 5 v)
      ⟨0, false⟩).1 = .error (.backend 5) :=
  ⟨rfl, (interact_result_passthrough _ _ rfl).1 5 0 rfl⟩

/-- Claim C4: after an interact whose closure panicked, the lock is poisoned,
and a subsequent poison-tolerating interaction through the shared handle of
inner_obj (locking and recovering the guard from the PoisonError) still
observes the wrapped object in the state the panicking closure left it in:
poisoning does not orphan the object. -/
theorem poisoned_object_recoverable {T R E P : Type}
    (f : T → ClosureOutcome T R E P) (m : MutexState T) (p : P) (t : T)
    (hpo : m.poisoned = false) (hf : f m.val = .panicked p t) :
    (SyncWrapper.is_mutex_poisoned (SyncWrapper.interact f m).2).1 = true ∧
    lockIgnoringPoison (SyncWrapper.inner_obj (SyncWrapper.interact f m).2) = t := by
  simp [SyncWrapper.interact, SyncWrapper.interactWorker, spawn_blocking,
    SyncWrapper.is_mutex_poisoned, SyncWrapper.inner_obj, lockIgnoringPoison,
    MutexState.lock, hpo, hf]

/-- Concrete run of claim C4: after a panic that left the counter at 9, the
poison flag is set and the tolerant access still reads 9. -/
theorem poisoned_object_recoverable_witness :
    (⟨3, false⟩ : MutexState Nat).poisoned = false ∧
    ((SyncWrapper.is_mutex_poisoned (SyncWrapper.interact
        (fun _ : Nat => ClosureOutcome.panicked (R := Nat) (E := Nat) 2 9)
        ⟨3, false⟩).2).1 = true ∧
      lockIgnoringPoison (SyncWrapper.inner_obj (SyncWrapper.interact
        (fun _ : Nat => ClosureOutcome.panicked (R := Nat) (E := Nat) 2 9)
        ⟨3, false⟩).2) = 9) :=
  ⟨rfl, poisoned_object_recoverable _ _ 2 9 rfl rfl⟩

/-- Claim C5: a factory that returns Err(e) makes SyncWrapper::new return that
same error e, and no wrapped object is created from that call. -/
theorem new_err_passthrough {T E P : Type} (e : E) :
    SyncWrapper.new (T := T) (P := P) (.completed (.error e)) = .err e ∧
    ∀ w : MutexState T,
      SyncWrapper.new (T := T) (P := P) (.completed (.error e)) ≠ .created w := by
  refine ⟨rfl, ?_⟩
  intro w h
  cases h

/-- Claim C6: a factory that panics makes the SyncWrapper::new call itself
terminate by propagating a panic, never by returning an Err value (and no
wrapper is created either). -/
theorem new_panic_propagates {T E P : Type} (p : P) :
    SyncWrapper.new (T := T) (E := E) (.panicked p) = .panicked p ∧
    (∀ e : E, SyncWrapper.new (T := T) (E := E) (.panicked p) ≠ .err e) ∧
    (∀ w : MutexState T, SyncWrapper.new (T := T) (E := E) (.panicked p) ≠ .created w) := by
  refine ⟨rfl, ?_, ?_⟩ <;> intro x h <;> cases h

/-- Claim C7: dropping the last reference runs the destructor of the wrapped
object exactly once, on the background worker task, destroying exactly the
held value even when the lock is poisoned at drop time; no teardown error is
propagated (the outcome carries no error), and a failure to schedule the
teardown task makes drop panic. -/
theorem drop_destroys_once {T : Type} (t : T) (b : Bool) :
    SyncWrapper.drop true ⟨t, b⟩ = .destroyed t ∧
    SyncWrapper.drop false (⟨t, b⟩ : MutexState T) = .fatal := by
  cases b <;> simp [SyncWrapper.drop, lockIgnoringPoison, MutexState.lock]

/-- Claim C8: in every state reachable by interleaving concurrent interact
calls on one wrapper, no two worker closures are inside their critical section
at once (interactions serialize on the lock), and the lock is held exactly when
its owning worker task is mid-execution — never while the asynchronous caller
is suspended outside the worker run. -/
theorem interact_mutual_exclusion {n : Nat} {s : LockSys n}
    (h : Reaches (initSys n) s) :
    (∀ i j, s.tasks i = .holding → s.tasks j = .holding → i = j) ∧
    (∀ i, s.owner = some i ↔ s.tasks i = .holding) := by
  have inv := lockSys_invariant h
  refine ⟨?_, fun i => (inv i).symm⟩
  intro i j hi hj
  have h1 := (inv i).mp hi
  have h2 := (inv j).mp hj
  rw [h1] at h2
  exact Option.some.inj h2

/-- Concrete run of claim C8: after task 0 of two acquires the free lock, the
reachable state has the lock owned by task 0. -/
theorem interact_mutual_exclusion_witness :
    Reaches (initSys 2)
      ⟨some 0, Function.update (fun _ => Pc.pending) 0 Pc.holding⟩ ∧
    (⟨some 0, Function.update (fun _ => Pc.pending) 0 Pc.holding⟩ : LockSys 2).owner
      = some 0 :=
  have hr : Reaches (initSys 2)
      ⟨some 0, Function.update (fun _ => Pc.pending) 0 Pc.holding⟩ :=
    Reaches.step (Reaches.refl _) (LockStep.acquire 0 (initSys 2) rfl rfl)
  ⟨hr, ((interact_mutual_exclusion hr).2 0).mpr (by simp [Function.update])⟩

/-- Claim C9: is_mutex_poisoned returns exactly the poison flag of the lock —
which, along any trace of interact calls started from a fresh wrapper, is true
if and only if some prior closure panicked while holding the lock — and the
query has no side effect: the wrapper state it returns is unchanged. -/
theorem is_mutex_poisoned_spec {T R E P : Type}
    (steps : List (Sched × (T → ClosureOutcome T R E P))) (t0 : T)
    (m : MutexState T) :
    ((SyncWrapper.is_mutex_poisoned
        (SyncWrapper.runTrace steps (⟨t0, false⟩ : MutexState T))).1 = true ↔
      SyncWrapper.panickedDuring steps (⟨t0, false⟩ : MutexState T) = true) ∧
    (SyncWrapper.is_mutex_poisoned m).1 = m.poisoned ∧
    (SyncWrapper.is_mutex_poisoned m).2 = m := by
  refine ⟨?_, rfl, rfl⟩
  simp [SyncWrapper.is_mutex_poisoned, SyncWrapper.runTrace_poisoned]

/-- Claim C10: Display for InteractError prints "Panic" for the Panic variant
independently of the payload, "Aborted" for Aborted, and "Backend error: "
followed by the Display output of e for Backend(e); and Error::source yields
the backend error for Backend and none for Panic and Aborted. -/
theorem interactError_display_source {E P : Type} (dispE : E → String)
    (e : E) (p1 p2 : P) :
    SyncWrapper.displayFmt dispE (.panic p1 : InteractError E P) = "Panic" ∧
    SyncWrapper.displayFmt dispE (.panic p1 : InteractError E P)
      = SyncWrapper.displayFmt dispE (.panic p2 : InteractError E P) ∧
    SyncWrapper.displayFmt dispE (.aborted : InteractError E P) = "Aborted" ∧
    SyncWrapper.displayFmt dispE (.backend e : InteractError E P)
      = "Backend error: " ++ dispE e ∧
    SyncWrapper.sourceOf (.panic p1 : InteractError E P) = none ∧
    SyncWrapper.sourceOf (.aborted : InteractError E P) = (none : Option E) ∧
    SyncWrapper.sourceOf (.backend e : InteractError E P) = some e :=
  ⟨rfl, rfl, rfl, rfl, rfl, rfl, rfl⟩

end Deadpool
